import Mathlib

/-!
Shallow embedding of the `build.rs` build script of `dpdk-rs`.

Strings from the source are modelled as `List Char`; the two platform
pipelines (`os_build_linux`, `os_build_windows`) are pure functions over an
explicit world of environment readings and subprocess results, returning the
trace of emitted build directives and written artifacts together with an
optional error (a panic or a propagated `?` error in the source).
-/

/-- Coerce a Lean string literal to the `List Char` representation used
throughout the development. -/
def str (s : String) : List Char := s.toList

/-- Whitespace as recognised by Rust's `str::trim` (restricted to the ASCII
whitespace that can actually occur in the flag strings handled here). -/
def isWS (c : Char) : Bool := c = ' ' || c = '\t' || c = '\n' || c = '\r'

/-- Model of Rust's `str::trim`: remove leading and trailing whitespace. -/
def trim (l : List Char) : List Char :=
  ((l.dropWhile isWS).reverse.dropWhile isWS).reverse

/-- Split a character list at every character satisfying `p`, keeping empty
segments, exactly like Rust's `str::split` with a single-char pattern. -/
def splitOnP (p : Char → Bool) : List Char → List (List Char)
  | [] => [[]]
  | c :: cs =>
    if p c then [] :: splitOnP p cs
    else (c :: (splitOnP p cs).headI) :: (splitOnP p cs).tail

/-- Rust's `flags.split(' ')`: split at every space character. -/
def splitOnSpace : List Char → List (List Char) := splitOnP (fun c => c = ' ')

/-- Model of Rust's `str::starts_with` on a string pattern. -/
def startsWith : List Char → List Char → Bool
  | [], _ => true
  | _ :: _, [] => false
  | p :: ps, c :: cs => p == c && startsWith ps cs

/-- Loop body of the cflags loop in `build.rs` (Linux, lines 94-99): a token
starting with `-I` has the prefix sliced off and is trimmed before being
pushed. -/
def cflags_step (acc : List (List Char)) (flag : List Char) : List (List Char) :=
  if startsWith (str "-I") flag then acc ++ [trim (flag.drop 2)] else acc

/-- The cflags parse of `build.rs` (Linux): split the `pkg-config --cflags`
output on spaces and collect the `-I` tokens. -/
def parse_cflags (cflags : List Char) : List (List Char) :=
  (splitOnSpace cflags).foldl cflags_step []

/-- Loop body of the ldflags loop in `build.rs` (Linux, lines 111-117): a
`-L` token overwrites `library_location`, a `-l` token is appended to
`lib_names`; neither is trimmed. -/
def ld_step (acc : Option (List Char) × List (List Char)) (flag : List Char) :
    Option (List Char) × List (List Char) :=
  if startsWith (str "-L") flag then (some (flag.drop 2), acc.2)
  else if startsWith (str "-l") flag then (acc.1, acc.2 ++ [flag.drop 2])
  else acc

/-- The ldflags parse of `build.rs` (Linux): split the `pkg-config --libs`
output on spaces and fold the loop body over the tokens. -/
def parse_ldflags (ldflags : List Char) : Option (List Char) × List (List Char) :=
  (splitOnSpace ldflags).foldl ld_step (none, [])

/-- The four extra libraries linked by the `mlx5` cargo feature
(`build.rs` line 122), in source order. -/
def mlx5_libs : List (List Char) :=
  [str "rte_net_mlx5", str "rte_bus_pci", str "rte_bus_vdev", str "rte_common_mlx5"]

/-- The `#[cfg(feature = "mlx5")]` extension of `lib_names`. -/
def extend_mlx5 (mlx5 : Bool) (lib_names : List (List Char)) : List (List Char) :=
  if mlx5 then lib_names ++ mlx5_libs else lib_names

/-- A link-configuration directive printed to cargo. -/
inductive Directive where
  /-- `cargo:rustc-link-search...` -/
  | linkSearch : List Char → Directive
  /-- `cargo:rustc-link-lib=dylib=...` -/
  | linkLib : List Char → Directive
deriving DecidableEq

/-- A build-scratch artifact written by the pipeline. -/
inductive Artifact where
  /-- the generated `bindings.rs` -/
  | bindingsFile : Artifact
  /-- the compiled `inlined` object -/
  | shimObject : Artifact
deriving DecidableEq

/-- An observable effect of the pipeline, in emission order. -/
inductive Emit where
  /-- a link directive printed to cargo -/
  | directive : Directive → Emit
  /-- a `cargo:rerun-if-env-changed=...` rebuild trigger -/
  | rerunTrigger : List Char → Emit
  /-- a file written to the build-scratch directory -/
  | artifact : Artifact → Emit
deriving DecidableEq

/-- The link directives contained in a trace, in order. -/
def directivesOf (tr : List Emit) : List Directive :=
  tr.filterMap fun e =>
    match e with
    | .directive d => some d
    | _ => none

/-- The artifacts contained in a trace, in order. -/
def artifactsOf (tr : List Emit) : List Artifact :=
  tr.filterMap fun e =>
    match e with
    | .artifact a => some a
    | _ => none

/-- The link-configurator emission of `build.rs` (Linux lines 125-132,
Windows lines 40-45): an optional search directory, then one dynamic-library
requirement per entry of `lib_names`. -/
def link_directives (library_location : Option (List Char))
    (lib_names : List (List Char)) : List Directive :=
  (match library_location with
   | some location => [Directive.linkSearch location]
   | none => []) ++ lib_names.map Directive.linkLib

/-- Kind of a native symbol addressed by a bindgen builder call. -/
inductive SymKind where
  | type : SymKind
  | func : SymKind
  | var : SymKind
deriving DecidableEq

/-- Disposition of a symbol-selection rule. -/
inductive Disposition where
  | allow : Disposition
  | block : Disposition
deriving DecidableEq

/-- One `allowlist_*` / `blocklist_*` builder call. -/
structure Rule where
  kind : SymKind
  name : List Char
  disp : Disposition
deriving DecidableEq

/-- The bindgen builder calls of the Linux variant (`build.rs` lines
141-207), in source order, duplicates included. -/
def linux_rules : List Rule :=
  [ ⟨.type, str "rte_mbuf", .allow⟩,
    ⟨.type, str "rte_mempool", .allow⟩,
    ⟨.func, str "rte_mempool_obj_iter", .allow⟩,
    ⟨.func, str "rte_mempool_mem_iter", .allow⟩,
    ⟨.func, str "rte_mempool_free", .allow⟩,
    ⟨.func, str "rte_eth_tx_burst", .allow⟩,
    ⟨.func, str "rte_eth_rx_burst", .allow⟩,
    ⟨.func, str "rte_eal_init", .allow⟩,
    ⟨.type, str "rte_eth_txconf", .allow⟩,
    ⟨.type, str "rte_eth_rxconf", .allow⟩,
    ⟨.func, str "rte_eth_dev_socket_id", .allow⟩,
    ⟨.func, str "rte_eth_dev_socket_id", .allow⟩,
    ⟨.func, str "rte_eth_rx_queue_setup", .allow⟩,
    ⟨.func, str "rte_eth_tx_queue_setup", .allow⟩,
    ⟨.type, str "rte_eth_fc_conf", .allow⟩,
    ⟨.func, str "rte_eth_dev_start", .allow⟩,
    ⟨.func, str "rte_eth_dev_flow_ctrl_get", .allow⟩,
    ⟨.func, str "rte_strerror", .allow⟩,
    ⟨.func, str "rte_eth_dev_count_avail", .allow⟩,
    ⟨.func, str "rte_eth_conf", .allow⟩,
    ⟨.func, str "rte_eth_dev_configure", .allow⟩,
    ⟨.func, str "rte_eth_dev_count_avail", .allow⟩,
    ⟨.func, str "rte_eth_dev_get_mtu", .allow⟩,
    ⟨.func, str "rte_eth_dev_set_mtu", .allow⟩,
    ⟨.func, str "rte_eth_promiscuous_enable", .allow⟩,
    ⟨.func, str "rte_eth_dev_is_valid_port", .allow⟩,
    ⟨.func, str "rte_eth_dev_flow_ctrl_set", .allow⟩,
    ⟨.var, str "RTE_PKTMBUF_HEADROOM", .allow⟩,
    ⟨.func, str "rte_mempool_avail_count", .allow⟩,
    ⟨.func, str "rte_mempool_in_use_count", .allow⟩,
    ⟨.var, str "RTE_ETHER_MAX_JUMBO_FRAME", .allow⟩,
    ⟨.func, str "rte_eth_link_get_nowait", .allow⟩,
    ⟨.var, str "RTE_ETH_LINK_UP", .allow⟩,
    ⟨.var, str "RTE_ETH_LINK_FULL_DUPLEX", .allow⟩,
    ⟨.func, str "rte_delay_us_block", .allow⟩,
    ⟨.func, str "rte_socket_id", .allow⟩,
    ⟨.func, str "rte_pktmbuf_pool_create", .allow⟩,
    ⟨.type, str "rte_pktmbuf_pool_private", .allow⟩,
    ⟨.func, str "rte_mempool_create_empty", .allow⟩,
    ⟨.func, str "rte_pktmbuf_pool_init", .allow⟩,
    ⟨.func, str "rte_mempool_populate_default", .allow⟩,
    ⟨.func, str "rte_pktmbuf_init", .allow⟩,
    ⟨.func, str "rte_mempool_avail_count", .allow⟩,
    ⟨.func, str "rte_mempool_in_use_count", .allow⟩,
    ⟨.func, str "rte_pktmbuf_clone", .allow⟩,
    ⟨.type, str "rte_ether_addr", .allow⟩,
    ⟨.var, str "RTE_MBUF_DEFAULT_BUF_SIZE", .allow⟩,
    ⟨.var, str "RTE_ETHER_MAX_JUMBO_FRAME_LEN", .allow⟩,
    ⟨.var, str "RTE_ETH_RX_OFFLOAD_TCP_CKSUM", .allow⟩,
    ⟨.var, str "RTE_ETH_RX_OFFLOAD_UDP_CKSUM", .allow⟩,
    ⟨.var, str "RTE_ETH_TX_OFFLOAD_TCP_CKSUM", .allow⟩,
    ⟨.var, str "RTE_ETH_TX_OFFLOAD_UDP_CKSUM", .allow⟩,
    ⟨.var, str "RTE_ETH_DEV_NO_OWNER", .allow⟩,
    ⟨.var, str "RTE_ETHER_MAX_LEN", .allow⟩,
    ⟨.var, str "RTE_ETH_RSS_IP", .allow⟩,
    ⟨.func, str "rte_eth_find_next_owned_by", .allow⟩,
    ⟨.var, str "RTE_MAX_ETHPORTS", .allow⟩,
    ⟨.func, str "rte_eth_dev_info_get", .allow⟩,
    ⟨.func, str "rte_eth_macaddr_get", .allow⟩,
    ⟨.var, str "RTE_ETH_RX_OFFLOAD_IPV4_CKSUM", .allow⟩,
    ⟨.var, str "RTE_ETH_RX_OFFLOAD_UDP_CKSUM", .allow⟩,
    ⟨.var, str "RTE_ETH_MQ_RX_RSS", .allow⟩,
    ⟨.var, str "RTE_ETH_MQ_TX_NONE", .allow⟩,
    ⟨.func, str "rte_auxiliarry_register", .allow⟩,
    ⟨.type, str "rte_arp_ipv4", .block⟩,
    ⟨.type, str "rte_arp_hdr", .block⟩ ]

/-- The bindgen builder calls of the Windows variant (`build.rs` lines
50-56), in source order. -/
def windows_rules : List Rule :=
  [ ⟨.type, str "rte_arp_ipv4", .block⟩,
    ⟨.type, str "rte_arp_hdr", .block⟩,
    ⟨.type, str "IMAGE_TLS_DIRECTORY", .block⟩,
    ⟨.type, str "PIMAGE_TLS_DIRECTORY", .block⟩,
    ⟨.type, str "PIMAGE_TLS_DIRECTORY64", .block⟩,
    ⟨.type, str "IMAGE_TLS_DIRECTORY64", .block⟩,
    ⟨.type, str "_IMAGE_TLS_DIRECTORY64", .block⟩ ]

/-- The bindgen builder configuration relevant to the claims: clang
arguments, whether `allowlist_recursively` was called (and with what value),
the symbol rules, the header, and comment generation. -/
structure GeneratorConfig where
  clang_args : List (List Char)
  allowlist_recursively : Option Bool
  rules : List Rule
  header : List Char
  generate_comments : Bool
deriving DecidableEq

/-- The Linux bindgen configuration (`build.rs` lines 135-211) as a function
of the discovered header locations. -/
def linux_config (header_locations : List (List Char)) : GeneratorConfig :=
  { clang_args := header_locations.map (fun h => str "-I" ++ h) ++ [str "-mavx"],
    allowlist_recursively := some true,
    rules := linux_rules,
    header := str "wrapper.h",
    generate_comments := false }

/-- The Windows bindgen configuration (`build.rs` lines 48-60) as a function
of the derived include path. -/
def windows_config (include_path : List Char) : GeneratorConfig :=
  { clang_args := [str "-I" ++ include_path, str "-mavx"],
    allowlist_recursively := none,
    rules := windows_rules,
    header := str "wrapper.h",
    generate_comments := false }

/-- No (kind, name) pair carries both an Allow and a Block disposition. -/
def conflict_free (rules : List Rule) : Prop :=
  ∀ r1 ∈ rules, ∀ r2 ∈ rules, r1.kind = r2.kind → r1.name = r2.name → r1.disp = r2.disp

/-- The fourteen libraries linked by the Windows variant (`build.rs` lines
21-36), in source order. -/
def windows_libraries : List (List Char) :=
  [ str "rte_cfgfile", str "rte_hash", str "rte_cmdline", str "rte_pci",
    str "rte_ethdev", str "rte_meter", str "rte_net", str "rte_mbuf",
    str "rte_mempool", str "rte_rcu", str "rte_ring", str "rte_eal",
    str "rte_telemetry", str "rte_kvargs" ]

/-- `format!("{}{}", libdpdk_path, "\\include")` (`build.rs` line 18). -/
def windows_include_path (libdpdk_path : List Char) : List Char :=
  libdpdk_path ++ str "\\include"

/-- `format!("{}{}", libdpdk_path, "\\lib")` (`build.rs` line 19). -/
def windows_library_path (libdpdk_path : List Char) : List Char :=
  libdpdk_path ++ str "\\lib"

/-- An error aborting the Windows pipeline: a `?`-propagated error or a
panic. `envVarMissing` covers `env::var` failing because the variable is
absent or not readable as unicode (the spec's `ToolchainNotFound`). -/
inductive BuildError where
  | envVarMissing : List Char → BuildError
  | generationFailed : BuildError
  | writeFailed : BuildError
  | compileFailed : BuildError
deriving DecidableEq

/-- The inputs of one Windows build: the process environment and the
outcomes of the external capabilities the script invokes. -/
structure WindowsWorld where
  env : List Char → Option (List Char)
  generate_ok : Bool
  write_ok : Bool
  compile_ok : Bool

/-- The Windows `os_build` (`build.rs` lines 10-75): read `OUT_DIR` and
`LIBDPDK_PATH`, derive the include and library paths, print the link
directives, then generate bindings, write them, and compile the shim. -/
def os_build_windows (w : WindowsWorld) : List Emit × Option BuildError :=
  match w.env (str "OUT_DIR") with
  | none => ([], some (.envVarMissing (str "OUT_DIR")))
  | some _out_dir =>
    match w.env (str "LIBDPDK_PATH") with
    | none => ([], some (.envVarMissing (str "LIBDPDK_PATH")))
    | some libdpdk_path =>
      let library_path := windows_library_path libdpdk_path
      let tr0 := (link_directives (some library_path) windows_libraries).map Emit.directive
      if w.generate_ok then
        if w.write_ok then
          let tr1 := tr0 ++ [Emit.artifact .bindingsFile]
          if w.compile_ok then (tr1 ++ [Emit.artifact .shimObject], none)
          else (tr1, some .compileFailed)
        else (tr0, some .writeFailed)
      else (tr0, some .generationFailed)

/-- Which of the two pkg-config invocations is meant. -/
inductive QueryKind where
  | cflags : QueryKind
  | ldflags : QueryKind
deriving DecidableEq

/-- The outcome of a `Command::output()` call: whether the process could be
launched, its exit code, and its stdout (`none` when not decodable as
UTF-8). The exit code is recorded even though the script never reads it. -/
structure CmdResult where
  launched : Bool
  exit_code : Nat
  stdout_utf8 : Option (List Char)

/-- The inputs of one Linux build. -/
structure LinuxWorld where
  out_dir_set : Bool
  cflags_query : CmdResult
  ldflags_query : CmdResult
  mlx5 : Bool
  generate_ok : Bool
  write_ok : Bool
  compile_ok : Bool

/-- An error aborting the Linux pipeline (every one is a panic or an
`expect` in the source). `queryLaunchFailed` is the
`unwrap_or_else(|e| panic!(...))` on `Command::output()`; `outputNotUtf8`
is the `String::from_utf8(..).unwrap()`. -/
inductive LinuxError where
  | outDirMissing : LinuxError
  | queryLaunchFailed : QueryKind → LinuxError
  | outputNotUtf8 : QueryKind → LinuxError
  | generationFailed : LinuxError
  | writeFailed : LinuxError
  | compileFailed : LinuxError
deriving DecidableEq

/-- The Linux `os_build` (`build.rs` lines 78-229): read `OUT_DIR`, print
the rerun trigger, run and parse the two pkg-config queries, extend the
library list under the `mlx5` feature, print the link directives, then
generate bindings, write them, and compile the shim. The exit codes of the
queries are never inspected. -/
def os_build_linux (w : LinuxWorld) : List Emit × Option LinuxError :=
  if w.out_dir_set then
    let tr0 := [Emit.rerunTrigger (str "PKG_CONFIG_PATH")]
    if w.cflags_query.launched then
      match w.cflags_query.stdout_utf8 with
      | none => (tr0, some (.outputNotUtf8 .cflags))
      | some _cflags =>
        if w.ldflags_query.launched then
          match w.ldflags_query.stdout_utf8 with
          | none => (tr0, some (.outputNotUtf8 .ldflags))
          | some ldflags =>
            let parsed := parse_ldflags ldflags
            let lib_names := extend_mlx5 w.mlx5 parsed.2
            let tr1 := tr0 ++ (link_directives parsed.1 lib_names).map Emit.directive
            if w.generate_ok then
              if w.write_ok then
                let tr2 := tr1 ++ [Emit.artifact .bindingsFile]
                if w.compile_ok then (tr2 ++ [Emit.artifact .shimObject], none)
                else (tr2, some .compileFailed)
              else (tr1, some .writeFailed)
            else (tr1, some .generationFailed)
        else (tr0, some (.queryLaunchFailed .ldflags))
    else (tr0, some (.queryLaunchFailed .cflags))
  else ([], some .outDirMissing)

/-- Replace the exit codes of both queries of a Linux world. -/
def set_exit_codes (w : LinuxWorld) (n m : Nat) : LinuxWorld :=
  { w with
    cflags_query := { w.cflags_query with exit_code := n },
    ldflags_query := { w.ldflags_query with exit_code := m } }

/-- Modelled from the spec: the include-path computation as §4.1 and the C5
claim describe it — split the compiler-flags output on whitespace and
collect, in order, every `-I` token with the prefix removed (no trimming).
Used only to compare the spec's description with `parse_cflags`. -/
def spec_include_paths (cflags : List Char) : List (List Char) :=
  ((splitOnP isWS cflags).filter (startsWith (str "-I"))).map (List.drop 2)
/-- A Linux world whose pkg-config queries launch fine but exit with status
1: the script never looks at the status, so the build runs to completion. -/
def c1_world : LinuxWorld :=
  { out_dir_set := true,
    cflags_query := { launched := true, exit_code := 1, stdout_utf8 := some [] },
    ldflags_query := { launched := true, exit_code := 1, stdout_utf8 := some [] },
    mlx5 := false, generate_ok := true, write_ok := true, compile_ok := true }

/-- A Linux world whose cflags query cannot be launched. -/
def c1_cflags_world : LinuxWorld :=
  { out_dir_set := true,
    cflags_query := { launched := false, exit_code := 0, stdout_utf8 := none },
    ldflags_query := { launched := false, exit_code := 0, stdout_utf8 := none },
    mlx5 := false, generate_ok := true, write_ok := true, compile_ok := true }

/-- A Linux world whose ldflags query cannot be launched. -/
def c1_ldflags_world : LinuxWorld :=
  { out_dir_set := true,
    cflags_query := { launched := true, exit_code := 0, stdout_utf8 := some [] },
    ldflags_query := { launched := false, exit_code := 0, stdout_utf8 := none },
    mlx5 := false, generate_ok := true, write_ok := true, compile_ok := true }

/-- A Windows world with `LIBDPDK_PATH=/opt/dpdk` and `OUT_DIR` set. -/
def c2_world : WindowsWorld :=
  { env := fun n =>
      if n = str "OUT_DIR" then some (str "out")
      else if n = str "LIBDPDK_PATH" then some (str "/opt/dpdk") else none,
    generate_ok := true, write_ok := true, compile_ok := true }

/-- A Linux world with successful queries, used to exercise the link
directive emission (including a duplicated library name and the mlx5
feature). -/
def c8_world : LinuxWorld :=
  { out_dir_set := true,
    cflags_query := { launched := true, exit_code := 0, stdout_utf8 := some (str "-Iinc") },
    ldflags_query :=
      { launched := true, exit_code := 0, stdout_utf8 := some (str "-Llib -lfoo -lfoo") },
    mlx5 := true, generate_ok := true, write_ok := true, compile_ok := true }

/-- A Windows world whose environment defines no variable at all. -/
def c9_world : WindowsWorld :=
  { env := fun _ => none, generate_ok := true, write_ok := true, compile_ok := true }

section Helpers

lemma str_dashI : str "-I" = ['-', 'I'] := rfl

lemma str_dashL : str "-L" = ['-', 'L'] := rfl

lemma str_dashl : str "-l" = ['-', 'l'] := rfl

lemma startsWith_shape {a b : Char} {t : List Char} (h : startsWith [a, b] t = true) :
    ∃ r, t = a :: b :: r := by
  match t with
  | [] => simp [startsWith] at h
  | [c] => simp [startsWith] at h
  | c :: d :: r =>
    simp only [startsWith, Bool.and_eq_true, beq_iff_eq] at h
    exact ⟨r, by rw [h.1, h.2.1]⟩

lemma not_both_dashL_dashl {t : List Char} (h : startsWith (str "-L") t = true) :
    startsWith (str "-l") t = false := by
  rw [str_dashL] at h
  obtain ⟨r, rfl⟩ := startsWith_shape h
  simp [str_dashl, startsWith]

lemma foldl_cflags_step (toks : List (List Char)) (acc : List (List Char)) :
    toks.foldl cflags_step acc =
      acc ++ (toks.filter (startsWith (str "-I"))).map (fun t => trim (t.drop 2)) := by
  induction toks generalizing acc with
  | nil => simp
  | cons t ts ih =>
    simp only [List.foldl_cons, cflags_step, List.filter_cons]
    cases h : startsWith (str "-I") t with
    | true => simp [ih]
    | false => simp [ih]

lemma foldl_ld_step (toks : List (List Char)) (acc : Option (List Char) × List (List Char)) :
    toks.foldl ld_step acc =
      (((toks.filter (startsWith (str "-L"))).getLast?).elim acc.1 (fun t => some (t.drop 2)),
       acc.2 ++ (toks.filter (startsWith (str "-l"))).map (List.drop 2)) := by
  induction toks using List.reverseRecOn with
  | nil => simp
  | append_singleton ts t ih =>
    rw [List.foldl_concat, ih, List.filter_append, List.filter_append]
    cases hL : startsWith (str "-L") t with
    | true =>
      have hl := not_both_dashL_dashl hL
      simp [ld_step, hL, hl, List.getLast?_concat]
    | false =>
      cases hl : startsWith (str "-l") t with
      | true => simp [ld_step, hL, hl]
      | false => simp [ld_step, hL, hl]

lemma parse_ldflags_fst (out : List Char) :
    (parse_ldflags out).1 =
      ((splitOnSpace out).filter (startsWith (str "-L"))).getLast?.map (fun t => t.drop 2) := by
  rw [parse_ldflags, foldl_ld_step]
  cases ((splitOnSpace out).filter (startsWith (str "-L"))).getLast? <;> simp

lemma parse_ldflags_snd (out : List Char) :
    (parse_ldflags out).2 =
      ((splitOnSpace out).filter (startsWith (str "-l"))).map (List.drop 2) := by
  rw [parse_ldflags, foldl_ld_step]
  simp

lemma parse_cflags_eq (out : List Char) :
    parse_cflags out =
      ((splitOnSpace out).filter (startsWith (str "-I"))).map (fun t => trim (t.drop 2)) := by
  rw [parse_cflags, foldl_cflags_step]; simp

lemma splitOnP_cons (p : Char → Bool) (c : Char) (cs : List Char) :
    splitOnP p (c :: cs) =
      if p c then [] :: splitOnP p cs
      else (c :: (splitOnP p cs).headI) :: (splitOnP p cs).tail := rfl

lemma splitOnP_ne_nil (p : Char → Bool) (l : List Char) : splitOnP p l ≠ [] := by
  cases l with
  | nil => simp [splitOnP]
  | cons c cs =>
    rw [splitOnP_cons]
    split <;> simp

lemma getLast?_cons_of_ne_nil {α} {x : α} {S : List α} (h : S ≠ []) :
    (x :: S).getLast? = S.getLast? := by
  cases S with
  | nil => exact absurd rfl h
  | cons s S' => exact List.getLast?_cons_cons

lemma splitOnP_getLast (p : Char → Bool) :
    ∀ (l : List Char) (c : Char), l.getLast? = some c → p c = false →
      ∃ t, (splitOnP p l).getLast? = some t ∧ t.getLast? = some c := by
  intro l
  induction l with
  | nil => intro c h _; simp at h
  | cons c0 cs ih =>
    intro c h hp
    cases cs with
    | nil =>
      simp only [List.getLast?_singleton, Option.some.injEq] at h
      subst h
      refine ⟨[c0], ?_, rfl⟩
      rw [splitOnP_cons]
      simp [hp, splitOnP]
    | cons c1 cs' =>
      rw [List.getLast?_cons_cons] at h
      obtain ⟨t, ht, htc⟩ := ih c h hp
      cases hS : splitOnP p (c1 :: cs') with
      | nil => exact absurd hS (splitOnP_ne_nil p (c1 :: cs'))
      | cons t0 ts =>
        rw [hS] at ht
        rw [splitOnP_cons, hS]
        by_cases h0 : p c0 = true
        · refine ⟨t, ?_, htc⟩
          rw [if_pos h0, getLast?_cons_of_ne_nil (by simp)]
          exact ht
        · rw [if_neg h0]
          cases ts with
          | nil =>
            simp only [List.getLast?_singleton, Option.some.injEq] at ht
            subst ht
            refine ⟨c0 :: t0, ?_, ?_⟩
            · simp
            · rw [getLast?_cons_of_ne_nil ?_]
              · exact htc
              · intro hnil; rw [hnil] at htc; simp at htc
          | cons t1 ts' =>
            refine ⟨t, ?_, htc⟩
            simp only [List.headI, List.tail]
            rw [List.getLast?_cons_cons]
            rw [getLast?_cons_of_ne_nil (by simp)] at ht
            exact ht

lemma getLast?_filter {α} (p : α → Bool) (l : List α) (a : α)
    (h : l.getLast? = some a) (hp : p a = true) : (l.filter p).getLast? = some a := by
  induction l using List.reverseRecOn with
  | nil => simp at h
  | append_singleton ts t ih =>
    rw [List.getLast?_concat] at h
    cases h
    rw [List.filter_append]
    simp [hp, List.getLast?_concat]

lemma getLast?_map' {α β} (f : α → β) (l : List α) :
    (l.map f).getLast? = l.getLast?.map f := by
  induction l using List.reverseRecOn with
  | nil => simp
  | append_singleton ts t ih => simp [List.getLast?_concat]

lemma getLast?_cons_of_ne {α} {b c : α} {r : List α}
    (h : (b :: r).getLast? = some c) (hb : c ≠ b) : r.getLast? = some c := by
  cases r with
  | nil => simp only [List.getLast?_singleton, Option.some.injEq] at h; exact absurd h.symm hb
  | cons x xs => rwa [List.getLast?_cons_cons] at h

lemma directivesOf_append (a b : List Emit) :
    directivesOf (a ++ b) = directivesOf a ++ directivesOf b := by
  simp [directivesOf, List.filterMap_append]

lemma directivesOf_map_directive (l : List Directive) :
    directivesOf (l.map Emit.directive) = l := by
  induction l with
  | nil => rfl
  | cons d ds ih => simp only [directivesOf, List.map_cons, List.filterMap_cons] at ih ⊢; rw [ih]

lemma directivesOf_nil : directivesOf [] = [] := rfl

lemma directivesOf_rerun (n : List Char) (tr : List Emit) :
    directivesOf (Emit.rerunTrigger n :: tr) = directivesOf tr := by
  simp only [directivesOf, List.filterMap_cons]

lemma directivesOf_artifact (a : Artifact) (tr : List Emit) :
    directivesOf (Emit.artifact a :: tr) = directivesOf tr := by
  simp only [directivesOf, List.filterMap_cons]

lemma directivesOf_cons_directive (d : Directive) (tr : List Emit) :
    directivesOf (Emit.directive d :: tr) = d :: directivesOf tr := by
  simp only [directivesOf, List.filterMap_cons]

lemma directivesOf_map_comp {α} (f : α → Directive) (l : List α) :
    directivesOf (l.map (Emit.directive ∘ f)) = l.map f := by
  induction l with
  | nil => rfl
  | cons a l ih =>
    simp only [List.map_cons, Function.comp_apply, directivesOf_cons_directive, ih]

end Helpers
/-- C1 counterexample: a pkg-config process that launches successfully but
exits with status 1 does not make the pipeline fail — the script never
inspects the exit status, so bindings generation and shim compilation both
run and the build succeeds. -/
theorem c1_nonzero_exit_not_checked :
    c1_world.cflags_query.launched = true ∧
    c1_world.cflags_query.exit_code ≠ 0 ∧
    c1_world.ldflags_query.launched = true ∧
    c1_world.ldflags_query.exit_code ≠ 0 ∧
    (os_build_linux c1_world).2 = none ∧
    Emit.artifact Artifact.bindingsFile ∈ (os_build_linux c1_world).1 ∧
    Emit.artifact Artifact.shimObject ∈ (os_build_linux c1_world).1 := by
  decide

/-- C1 (amended): on the Linux path a package-metadata query that cannot be
launched aborts the pipeline (the `ToolchainQueryFailed` panic) before any
generation or compilation is attempted; the exit status of a successfully
launched query is never inspected. -/
theorem c1_query_launch_failure_aborts :
    (∀ w : LinuxWorld, w.out_dir_set = true → w.cflags_query.launched = false →
      os_build_linux w = ([Emit.rerunTrigger (str "PKG_CONFIG_PATH")],
        some (LinuxError.queryLaunchFailed QueryKind.cflags))) ∧
    (∀ (w : LinuxWorld) (cf : List Char), w.out_dir_set = true →
      w.cflags_query.launched = true → w.cflags_query.stdout_utf8 = some cf →
      w.ldflags_query.launched = false →
      os_build_linux w = ([Emit.rerunTrigger (str "PKG_CONFIG_PATH")],
        some (LinuxError.queryLaunchFailed QueryKind.ldflags))) ∧
    (∀ (w : LinuxWorld) (n m : Nat), os_build_linux (set_exit_codes w n m) = os_build_linux w) := by
  refine ⟨?_, ?_, ?_⟩
  · intro w h1 h2
    simp [os_build_linux, h1, h2]
  · intro w cf h1 h2 hcf h3
    simp [os_build_linux, h1, h2, hcf, h3]
  · intro w n m
    obtain ⟨od, cq, lq, m5, g, wr, cp⟩ := w
    obtain ⟨cl, ce, cs⟩ := cq
    obtain ⟨ll, le, ls⟩ := lq
    rfl

/-- C1 witness: the two abort branches, exercised at concrete worlds. -/
theorem c1_query_launch_failure_aborts_witness :
    os_build_linux c1_cflags_world = ([Emit.rerunTrigger (str "PKG_CONFIG_PATH")],
      some (LinuxError.queryLaunchFailed QueryKind.cflags)) ∧
    os_build_linux c1_ldflags_world = ([Emit.rerunTrigger (str "PKG_CONFIG_PATH")],
      some (LinuxError.queryLaunchFailed QueryKind.ldflags)) :=
  ⟨c1_query_launch_failure_aborts.1 c1_cflags_world rfl rfl,
   c1_query_launch_failure_aborts.2.1 c1_ldflags_world [] rfl rfl rfl rfl⟩

/-- C2 counterexample: the Windows path joins `LIBDPDK_PATH` to its suffixes
with a backslash, so the derived paths for `/opt/dpdk` are
`/opt/dpdk\include` and `/opt/dpdk\lib`, not the forward-slash paths the
claim states. -/
theorem c2_backslash_separator :
    windows_include_path (str "/opt/dpdk") = str "/opt/dpdk\\include" ∧
    windows_include_path (str "/opt/dpdk") ≠ str "/opt/dpdk/include" ∧
    windows_library_path (str "/opt/dpdk") = str "/opt/dpdk\\lib" ∧
    windows_library_path (str "/opt/dpdk") ≠ str "/opt/dpdk/lib" := by
  decide

/-- C2 (amended): with `LIBDPDK_PATH=/opt/dpdk` the Windows path derives
include path `/opt/dpdk\include` and library search path `/opt/dpdk\lib`
(backslash separators), and emits exactly one library-requirement directive
for each of the fourteen fixed library names, in their declared order. -/
theorem c2_windows_scenario :
    ∀ (w : WindowsWorld) (od : List Char),
      w.env (str "OUT_DIR") = some od →
      w.env (str "LIBDPDK_PATH") = some (str "/opt/dpdk") →
      windows_include_path (str "/opt/dpdk") = str "/opt/dpdk\\include" ∧
      windows_library_path (str "/opt/dpdk") = str "/opt/dpdk\\lib" ∧
      directivesOf (os_build_windows w).1 =
        Directive.linkSearch (str "/opt/dpdk\\lib") :: windows_libraries.map Directive.linkLib ∧
      windows_libraries.length = 14 := by
  intro w od h1 h2
  refine ⟨by decide, by decide, ?_, by decide⟩
  unfold os_build_windows
  rw [h1, h2]
  have hpath : windows_library_path (str "/opt/dpdk") = str "/opt/dpdk\\lib" := by decide
  cases w.generate_ok <;> cases w.write_ok <;> cases w.compile_ok <;>
    simp [directivesOf_append, directivesOf_map_directive, directivesOf_nil,
      directivesOf_rerun, directivesOf_artifact, directivesOf_cons_directive,
      directivesOf_map_comp, link_directives, hpath]

/-- C2 witness: the amended scenario at a concrete environment. -/
theorem c2_windows_scenario_witness :
    windows_include_path (str "/opt/dpdk") = str "/opt/dpdk\\include" ∧
    windows_library_path (str "/opt/dpdk") = str "/opt/dpdk\\lib" ∧
    directivesOf (os_build_windows c2_world).1 =
      Directive.linkSearch (str "/opt/dpdk\\lib") :: windows_libraries.map Directive.linkLib ∧
    windows_libraries.length = 14 :=
  c2_windows_scenario c2_world (str "out") (by decide) (by decide)

/-- C3: the Linux bindgen configuration explicitly enables recursion through
transitively-required symbols (`allowlist_recursively(true)`); the Windows
configuration never sets it and its rule set consists solely of
block-disposition type rules. -/
theorem c3_recursion_asymmetry :
    (∀ header_locations, (linux_config header_locations).allowlist_recursively = some true) ∧
    (∀ include_path, (windows_config include_path).allowlist_recursively = none) ∧
    (∀ include_path, ((windows_config include_path).rules.all
        fun r => r.disp == Disposition.block && r.kind == SymKind.type) = true) := by
  refine ⟨fun _ => rfl, fun _ => rfl, fun _ => ?_⟩
  show (windows_rules.all fun r => r.disp == Disposition.block && r.kind == SymKind.type) = true
  decide

set_option maxRecDepth 10000 in
/-- C4: neither platform's symbol-selection policy contains a (kind, name)
pair carrying both an Allow and a Block disposition. -/
theorem c4_no_conflicting_dispositions :
    conflict_free linux_rules ∧ conflict_free windows_rules := by
  unfold conflict_free
  decide

/-- C5 counterexample: on the output `-Ia\t-Ib` (tab-separated) the code,
which splits on the space character only, stores the single entry
`a\t-Ib`, while splitting on whitespace as the claim states would give
`a` and `b`. -/
theorem c5_whitespace_split_refuted :
    parse_cflags (str "-Ia\t-Ib") = [str "a\t-Ib"] ∧
    spec_include_paths (str "-Ia\t-Ib") = [str "a", str "b"] ∧
    parse_cflags (str "-Ia\t-Ib") ≠ spec_include_paths (str "-Ia\t-Ib") := by
  decide

/-- C5 (amended): the include-path list is computed by splitting the
compiler-flags output on the space character and collecting, in order, every
`-I` token with the prefix removed and surrounding whitespace trimmed,
preserving duplicates and their relative order; `-Ipath/a -Ipath/b` yields
exactly `["path/a", "path/b"]`. -/
theorem c5_include_paths_characterization :
    (∀ out, parse_cflags out =
      ((splitOnSpace out).filter (startsWith (str "-I"))).map (fun t => trim (t.drop 2))) ∧
    parse_cflags (str "-Ipath/a -Ipath/b") = [str "path/a", str "path/b"] :=
  ⟨parse_cflags_eq, by decide⟩

/-- C6: among the space-separated tokens of the linker-flags output, the
`-L` tokens set the library search path with the last occurrence winning,
and the `-l` tokens are appended in order to the library-name list;
`-Lpath/lib -lfoo -lbar` yields search path `path/lib` and names
`["foo", "bar"]`. -/
theorem c6_ldflags_characterization :
    (∀ out, (parse_ldflags out).1 =
        ((splitOnSpace out).filter (startsWith (str "-L"))).getLast?.map (fun t => t.drop 2)) ∧
    (∀ out, (parse_ldflags out).2 =
        ((splitOnSpace out).filter (startsWith (str "-l"))).map (List.drop 2)) ∧
    parse_ldflags (str "-Lpath/lib -lfoo -lbar") =
      (some (str "path/lib"), [str "foo", str "bar"]) :=
  ⟨parse_ldflags_fst, parse_ldflags_snd, by decide⟩

/-- C7: enabling the mlx5 hardware-offload feature appends exactly its four
fixed library names after the discovered entries — never deduplicating
against them and never reordering them — and a disabled feature changes
nothing. -/
theorem c7_mlx5_appends_four :
    (∀ lib_names, extend_mlx5 true lib_names = lib_names ++ mlx5_libs) ∧
    (∀ lib_names, (extend_mlx5 true lib_names).take lib_names.length = lib_names) ∧
    (∀ (lib_names : List (List Char)) (n : List Char),
        (extend_mlx5 true lib_names).count n = lib_names.count n + mlx5_libs.count n) ∧
    mlx5_libs.length = 4 ∧
    (∀ lib_names, extend_mlx5 false lib_names = lib_names) := by
  refine ⟨fun l => rfl, fun l => ?_, fun l n => ?_, rfl, fun l => rfl⟩
  · rw [extend_mlx5]
    simp [List.take_left]
  · rw [extend_mlx5]
    simp [List.count_append]

/-- C8: the emitted link directives are, in order, zero or one
library-search directive (omitted exactly when no search path was
discovered) followed by one dynamic-library requirement per library-name
entry, in order and without deduplication; this is what both pipelines
print. -/
theorem c8_link_directive_emission :
    (∀ lib_names, link_directives none lib_names = lib_names.map Directive.linkLib) ∧
    (∀ loc lib_names, link_directives (some loc) lib_names =
        Directive.linkSearch loc :: lib_names.map Directive.linkLib) ∧
    link_directives (some (str "p")) [str "a", str "a"] =
      [Directive.linkSearch (str "p"), Directive.linkLib (str "a"),
        Directive.linkLib (str "a")] ∧
    (∀ (w : LinuxWorld) (cf lf : List Char),
        w.out_dir_set = true →
        w.cflags_query.launched = true → w.cflags_query.stdout_utf8 = some cf →
        w.ldflags_query.launched = true → w.ldflags_query.stdout_utf8 = some lf →
        directivesOf (os_build_linux w).1 =
          link_directives (parse_ldflags lf).1 (extend_mlx5 w.mlx5 (parse_ldflags lf).2)) ∧
    (∀ (w : WindowsWorld) (od p : List Char),
        w.env (str "OUT_DIR") = some od → w.env (str "LIBDPDK_PATH") = some p →
        directivesOf (os_build_windows w).1 =
          link_directives (some (windows_library_path p)) windows_libraries) := by
  refine ⟨fun l => rfl, fun loc l => rfl, by decide, ?_, ?_⟩
  · intro w cf lf h0 h1 h2 h3 h4
    unfold os_build_linux
    rw [h0, h2, h4]
    simp only [h1, h3, if_true]
    cases w.generate_ok <;> cases w.write_ok <;> cases w.compile_ok <;>
      simp [directivesOf_append, directivesOf_map_directive, directivesOf_nil,
        directivesOf_rerun, directivesOf_artifact, directivesOf_cons_directive,
        directivesOf_map_comp, link_directives]
  · intro w od p h1 h2
    unfold os_build_windows
    rw [h1, h2]
    cases w.generate_ok <;> cases w.write_ok <;> cases w.compile_ok <;>
      simp [directivesOf_append, directivesOf_map_directive, directivesOf_nil,
        directivesOf_rerun, directivesOf_artifact, directivesOf_cons_directive,
        directivesOf_map_comp, link_directives]

/-- C8 witness: the trace shapes at concrete worlds (Linux with the mlx5
feature and a duplicated discovered library; Windows with a set
environment). -/
theorem c8_link_directive_emission_witness :
    directivesOf (os_build_linux c8_world).1 =
      link_directives (parse_ldflags (str "-Llib -lfoo -lfoo")).1
        (extend_mlx5 true (parse_ldflags (str "-Llib -lfoo -lfoo")).2) :=
  c8_link_directive_emission.2.2.2.1 c8_world (str "-Iinc") (str "-Llib -lfoo -lfoo")
    rfl rfl rfl rfl rfl

/-- C9: on the Windows path an environment in which `LIBDPDK_PATH` is
unavailable makes the build fail with the missing-variable error
(`ToolchainNotFound`) and nothing — no directive, no artifact — is
emitted or written. -/
theorem c9_missing_env_aborts :
    ∀ w : WindowsWorld, w.env (str "LIBDPDK_PATH") = none →
      ∃ name, os_build_windows w = ([], some (BuildError.envVarMissing name)) := by
  intro w h
  unfold os_build_windows
  cases he : w.env (str "OUT_DIR") with
  | none => exact ⟨str "OUT_DIR", rfl⟩
  | some od =>
    refine ⟨str "LIBDPDK_PATH", ?_⟩
    rw [h]

/-- C9 witness: the empty environment. -/
theorem c9_missing_env_aborts_witness :
    ∃ name, os_build_windows c9_world = ([], some (BuildError.envVarMissing name)) :=
  c9_missing_env_aborts c9_world rfl

/-- C10: include-path tokens are trimmed before being stored (a trailing
newline disappears), while `-L` and `-l` tokens are stored untrimmed: for
every linker-flags output ending in a newline, the last space-token carries
that newline, and when that token is a `-l` (resp. `-L`) token the final
parsed library name (resp. the search path) retains the trailing newline. -/
theorem c10_trim_asymmetry :
    (parse_cflags (str "-Ipath/a -Ipath/b\n") = [str "path/a", str "path/b"]) ∧
    (∀ out : List Char, out.getLast? = some '\n' →
      ∃ t, (splitOnSpace out).getLast? = some t ∧ t.getLast? = some '\n') ∧
    (∀ (out t : List Char), (splitOnSpace out).getLast? = some t →
      startsWith (str "-l") t = true →
      (parse_ldflags out).2.getLast? = some (t.drop 2) ∧
      (t.getLast? = some '\n' → (t.drop 2).getLast? = some '\n')) ∧
    (∀ (out t : List Char), (splitOnSpace out).getLast? = some t →
      startsWith (str "-L") t = true →
      (parse_ldflags out).1 = some (t.drop 2) ∧
      (t.getLast? = some '\n' → (t.drop 2).getLast? = some '\n')) := by
  refine ⟨by decide, ?_, ?_, ?_⟩
  · intro out h
    exact splitOnP_getLast _ out '\n' h (by decide)
  · intro out t hlast hpre
    constructor
    · rw [parse_ldflags_snd, getLast?_map', getLast?_filter _ _ t hlast hpre]
      rfl
    · intro hnl
      rw [str_dashl] at hpre
      obtain ⟨r, rfl⟩ := startsWith_shape hpre
      have h1 : ('l' :: r).getLast? = some '\n' := by
        rw [← List.getLast?_cons_cons]
        exact hnl
      exact getLast?_cons_of_ne h1 (by decide)
  · intro out t hlast hpre
    constructor
    · rw [parse_ldflags_fst, getLast?_filter _ _ t hlast hpre]
      rfl
    · intro hnl
      rw [str_dashL] at hpre
      obtain ⟨r, rfl⟩ := startsWith_shape hpre
      have h1 : ('L' :: r).getLast? = some '\n' := by
        rw [← List.getLast?_cons_cons]
        exact hnl
      exact getLast?_cons_of_ne h1 (by decide)

/-- C10 witness: a linker-flags output ending in a newline, whose last token
is a `-l` token; and one whose last token is a `-L` token. -/
theorem c10_trim_asymmetry_witness :
    (∃ t, (splitOnSpace (str "-Lpath/lib -lfoo -lbar\n")).getLast? = some t ∧
      t.getLast? = some '\n') ∧
    (parse_ldflags (str "-Lpath/lib -lfoo -lbar\n")).2.getLast? =
      some ((str "-lbar\n").drop 2) ∧
    ((str "-lbar\n").drop 2).getLast? = some '\n' ∧
    (parse_ldflags (str "-lx -Lpath/lib\n")).1 = some ((str "-Lpath/lib\n").drop 2) := by
  have h2 := c10_trim_asymmetry.2.1 (str "-Lpath/lib -lfoo -lbar\n") (by decide)
  have h3 := c10_trim_asymmetry.2.2.1 (str "-Lpath/lib -lfoo -lbar\n") (str "-lbar\n")
    (by decide) (by decide)
  have h4 := c10_trim_asymmetry.2.2.2 (str "-lx -Lpath/lib\n") (str "-Lpath/lib\n")
    (by decide) (by decide)
  exact ⟨h2, h3.1, h3.2 (by decide), h4.1⟩
